import Mathlib

/-!
Shallow embedding of the smart-plant-light controller core
(`src/relaycontroller.cpp`, `src/timemanager.cpp`, `src/lightsensor.cpp`,
`src/wifimanager.cpp`, `src/plantcontroller.cpp`) together with theorems
checking the specified behaviour of each component.

Machine integers: `millis()` values are 32-bit unsigned on the target, so
all elapsed-time computations go through `elapsedMs`, the unsigned
wraparound-safe difference modulo 2^32, exactly as the C++ computes
`millis() - lastTimestamp` on `unsigned long`.

Floats: lux values are modelled as rationals; the float NaN case that the
sensor driver can produce is modelled by a dedicated constructor of
`RawLux`, so the validity tests `isnan(x) || x < 0 || x > 120000` can be
expressed faithfully.
-/

namespace SmartPlantLight

/-- 2^32, the modulus of `unsigned long` (`millis()`) on the target. -/
def U32MOD : ℕ := 4294967296

/-- A value truncated to 32 bits, as stored in an `unsigned long` field. -/
def u32 (n : ℕ) : ℕ := n % U32MOD

/-- `now - last` on 32-bit unsigned integers: the wraparound-safe elapsed
time used throughout the code base. -/
def elapsedMs (now last : ℕ) : ℕ := (u32 now + U32MOD - u32 last) % U32MOD

/-! ## Configuration constants (`include/config.h`) -/

def MIN_SWITCH_INTERVAL_MS : ℕ := 60000
def CHECK_INTERVAL_MS : ℕ := 30000
def SENSOR_SAMPLES : ℕ := 5
def LIGHT_START_HOUR : ℤ := 8
def LIGHT_END_HOUR : ℤ := 23
def LIGHT_THRESHOLD_LUX : ℚ := 100
def WIFI_TIMEOUT_MS : ℕ := 10000

/-! ## RelayController (`src/relaycontroller.cpp`) -/

structure RelayState where
  currentState : Bool
  lastSwitchTime : ℕ
  minSwitchInterval : ℕ
deriving DecidableEq

/-- The constructor `RelayController::RelayController`. -/
def mkRelayController : RelayState :=
  { currentState := false
    lastSwitchTime := 0
    minSwitchInterval := MIN_SWITCH_INTERVAL_MS }

/-- `RelayController::getTimeSinceLastSwitch`. -/
def RelayState.getTimeSinceLastSwitch (r : RelayState) (now : ℕ) : ℕ :=
  elapsedMs now r.lastSwitchTime

/-- `RelayController::canSwitchRelay`. -/
def RelayState.canSwitchRelay (r : RelayState) (now : ℕ) : Bool :=
  decide (r.minSwitchInterval ≤ r.getTimeSinceLastSwitch now)

/-- `RelayController::setRelayState`: returns the C++ return value together
with the post-state. -/
def RelayState.setRelayState (r : RelayState) (state : Bool) (now : ℕ) :
    Bool × RelayState :=
  if state = r.currentState then (true, r)
  else if r.canSwitchRelay now = false then (false, r)
  else (true, { r with currentState := state, lastSwitchTime := u32 now })

/-- `RelayController::emergencyStop`. -/
def RelayState.emergencyStop (r : RelayState) (now : ℕ) : RelayState :=
  { r with currentState := false, lastSwitchTime := u32 now }

/-! ## TimeManager (`src/timemanager.cpp`), restricted to the
time-validity and schedule-evaluation state the decision engine reads. -/

structure TimeState where
  timeValid : Bool
  ntpIsTimeSet : Bool
  ntpHours : ℤ
deriving DecidableEq

/-- `TimeManager::hasValidTime`. -/
def TimeState.hasValidTime (t : TimeState) : Bool :=
  t.timeValid && t.ntpIsTimeSet

/-- `TimeManager::getCurrentHour`. -/
def TimeState.getCurrentHour (t : TimeState) : ℤ :=
  if t.hasValidTime = false then -1 else t.ntpHours

/-- `TimeManager::isTimeInRangeWithDayBoundary`. -/
def isTimeInRangeWithDayBoundary (startHour endHour currentHour : ℤ) : Bool :=
  if startHour ≤ endHour then
    decide (startHour ≤ currentHour) && decide (currentHour < endHour)
  else
    decide (startHour ≤ currentHour) || decide (currentHour < endHour)

/-- `TimeManager::isTimeInRange`. -/
def TimeState.isTimeInRange (t : TimeState) (startHour endHour : ℤ) : Bool :=
  if t.hasValidTime = false then false
  else isTimeInRangeWithDayBoundary startHour endHour t.getCurrentHour

/-! ## WiFiManager (`src/wifimanager.cpp`) -/

inductive WiFiStatus where
  | Disconnected
  | Connecting
  | Connected
  | Failed
deriving DecidableEq

structure WifiState where
  currentStatus : WiFiStatus
  lastConnectionAttempt : ℕ
  lastSuccessfulConnection : ℕ
  connectionTimeout : ℕ
  reconnectInterval : ℕ
  connectionAttempts : ℕ
deriving DecidableEq

/-- The constructor `WiFiManager::WiFiManager`: the retry interval starts
at the 30 second base. -/
def mkWiFiManager : WifiState :=
  { currentStatus := WiFiStatus.Disconnected
    lastConnectionAttempt := 0
    lastSuccessfulConnection := 0
    connectionTimeout := WIFI_TIMEOUT_MS
    reconnectInterval := 30000
    connectionAttempts := 0 }

/-- `WiFiManager::connect`: the outcome of the bounded wait on the link is
the external input `linkUp`; the function returns the C++ return value
and the post-state. -/
def WifiState.connect (w : WifiState) (linkUp : Bool) (now : ℕ) :
    Bool × WifiState :=
  let w1 : WifiState :=
    { w with lastConnectionAttempt := u32 now
             connectionAttempts := w.connectionAttempts + 1
             currentStatus := WiFiStatus.Connecting }
  if linkUp then
    (true, { w1 with currentStatus := WiFiStatus.Connected
                     lastSuccessfulConnection := u32 now
                     reconnectInterval := 30000 })
  else
    (false, { w1 with currentStatus := WiFiStatus.Failed
                      reconnectInterval := min (w1.reconnectInterval * 2) 300000 })

/-- `WiFiManager::shouldAttemptReconnect`. -/
def WifiState.shouldAttemptReconnect (w : WifiState) (now : ℕ) : Bool :=
  if w.currentStatus = WiFiStatus.Connecting then false
  else decide (w.reconnectInterval ≤ elapsedMs now w.lastConnectionAttempt)

/-! ## LightSensor (`src/lightsensor.cpp`) -/

/-- A raw `float` lux reading from the VEML7700 driver: either NaN or an
actual number (modelled as a rational). -/
inductive RawLux where
  | nan
  | val (lux : ℚ)
deriving DecidableEq

/-- `isnan(x)` on a raw reading. -/
def RawLux.isnan : RawLux → Bool
  | .nan => true
  | .val _ => false

/-- `x >= 0` on a raw reading (false for NaN, as in IEEE comparison). -/
def RawLux.nonneg : RawLux → Bool
  | .nan => false
  | .val q => decide (0 ≤ q)

structure SensorState where
  bufferSize : ℕ
  readingBuffer : List ℚ
  bufferIndex : ℕ
  bufferFull : Bool
  currentAverageLux : ℚ
  lastRawLux : RawLux
  readingCount : ℕ
  lastReadingTime : ℕ
  sensorInitialized : Bool
deriving DecidableEq

/-- The constructor `LightSensor::LightSensor`: buffer allocated and
zero-filled, everything else cleared. -/
def mkLightSensor (bufferSize : ℕ) : SensorState :=
  { bufferSize := bufferSize
    readingBuffer := List.replicate bufferSize 0
    bufferIndex := 0
    bufferFull := false
    currentAverageLux := 0
    lastRawLux := RawLux.val 0
    readingCount := 0
    lastReadingTime := 0
    sensorInitialized := false }

/-- `LightSensor::resetAveraging`. -/
def SensorState.resetAveraging (s : SensorState) : SensorState :=
  { s with readingBuffer := List.replicate s.bufferSize 0
           bufferIndex := 0
           bufferFull := false
           currentAverageLux := 0 }

/-- `LightSensor::begin`: the external VEML7700 initialization outcome is
the input `vemlOk`; on success the sensor is marked initialized and the
averaging state reset. -/
def SensorState.beginSensor (s : SensorState) (vemlOk : Bool) : SensorState :=
  if vemlOk then ({ s with sensorInitialized := true }).resetAveraging else s

/-- `LightSensor::addToBuffer`. -/
def SensorState.addToBuffer (s : SensorState) (newReading : ℚ) : SensorState :=
  let buf := s.readingBuffer.set s.bufferIndex newReading
  let i := s.bufferIndex + 1
  if s.bufferSize ≤ i then
    { s with readingBuffer := buf, bufferIndex := 0, bufferFull := true }
  else
    { s with readingBuffer := buf, bufferIndex := i }

/-- `LightSensor::calculateAverage`. -/
def SensorState.calculateAverage (s : SensorState) : SensorState :=
  let samplesCount := if s.bufferFull then s.bufferSize else s.bufferIndex
  let sum := (s.readingBuffer.take samplesCount).sum
  { s with currentAverageLux :=
      if 0 < samplesCount then sum / (samplesCount : ℚ) else 0 }

/-- `LightSensor::updateReading`: the raw driver reading is the external
input; returns the C++ return value and the post-state. -/
def SensorState.updateReading (s : SensorState) (newReading : RawLux) (now : ℕ) :
    Bool × SensorState :=
  if s.sensorInitialized = false then (false, s)
  else
    match newReading with
    | .nan => (false, s)
    | .val q =>
      if q < 0 ∨ 120000 < q then (false, s)
      else
        let s1 : SensorState :=
          { s with lastRawLux := RawLux.val q
                   lastReadingTime := u32 now
                   readingCount := s.readingCount + 1 }
        (true, (s1.addToBuffer q).calculateAverage)

/-- `LightSensor::isBelowThreshold`. -/
def SensorState.isBelowThreshold (s : SensorState) (thresholdLux : ℚ) : Bool :=
  decide (s.currentAverageLux < thresholdLux)

/-- `LightSensor::isSensorHealthy`. -/
def SensorState.isSensorHealthy (s : SensorState) (now : ℕ) : Bool :=
  if s.sensorInitialized = false then false
  else
    let timeSinceLastReading := elapsedMs now s.lastReadingTime
    let recentReading := decide (timeSinceLastReading < 60000)
    let validReading := !s.lastRawLux.isnan && s.lastRawLux.nonneg
    recentReading && validReading

/-! ## PlantController (`src/plantcontroller.cpp`) -/

inductive ControlDecision where
  | TurnOn
  | TurnOff
  | KeepCurrent
  | WaitForData
deriving DecidableEq

inductive ControlReason where
  | OutOfSchedule
  | InScheduleDark
  | InScheduleBright
  | NoValidTime
  | SensorFailure
  | RelayBusy
deriving DecidableEq

structure PlantState where
  relay : RelayState
  sensor : SensorState
  time : TimeState
  lastDecision : ControlDecision
  lastReason : ControlReason
  lastDecisionTime : ℕ
  lastUpdateTime : ℕ
  decisionCount : ℕ
  relayChanges : ℕ
  automaticControlEnabled : Bool
  updateInterval : ℕ
  scheduleStartHour : ℤ
  scheduleEndHour : ℤ
  lightThresholdLux : ℚ
deriving DecidableEq

/-- The constructor `PlantController::PlantController`. -/
def mkPlantController (relay : RelayState) (sensor : SensorState)
    (time : TimeState) : PlantState :=
  { relay := relay
    sensor := sensor
    time := time
    lastDecision := ControlDecision.WaitForData
    lastReason := ControlReason.NoValidTime
    lastDecisionTime := 0
    lastUpdateTime := 0
    decisionCount := 0
    relayChanges := 0
    automaticControlEnabled := true
    updateInterval := CHECK_INTERVAL_MS
    scheduleStartHour := LIGHT_START_HOUR
    scheduleEndHour := LIGHT_END_HOUR
    lightThresholdLux := LIGHT_THRESHOLD_LUX }

/-- `PlantController::validateComponents`: `some r` models `return false`
with out-parameter `reason = r`; `none` models `return true` (the
out-parameter is left unassigned by the C++ in that case). -/
def PlantState.validateComponents (p : PlantState) (now : ℕ) :
    Option ControlReason :=
  if p.time.hasValidTime = false then some ControlReason.NoValidTime
  else if p.sensor.isSensorHealthy now = false then some ControlReason.SensorFailure
  else if p.relay.canSwitchRelay now = false then some ControlReason.RelayBusy
  else none

/-- `PlantController::isWithinSchedule`. -/
def PlantState.isWithinSchedule (p : PlantState) : Bool :=
  p.time.isTimeInRange p.scheduleStartHour p.scheduleEndHour

/-- `PlantController::isAmbientLightLow`. -/
def PlantState.isAmbientLightLow (p : PlantState) : Bool :=
  p.sensor.isBelowThreshold p.lightThresholdLux

/-- `PlantController::analyzeConditions`: returns the decision together
with the reason out-parameter. -/
def PlantState.analyzeConditions (p : PlantState) (now : ℕ) :
    ControlDecision × ControlReason :=
  match p.validateComponents now with
  | some r => (ControlDecision.WaitForData, r)
  | none =>
    if p.isWithinSchedule = false then
      (if p.relay.currentState then ControlDecision.TurnOff
       else ControlDecision.KeepCurrent, ControlReason.OutOfSchedule)
    else if p.isAmbientLightLow then
      (if p.relay.currentState then ControlDecision.KeepCurrent
       else ControlDecision.TurnOn, ControlReason.InScheduleDark)
    else
      (if p.relay.currentState then ControlDecision.TurnOff
       else ControlDecision.KeepCurrent, ControlReason.InScheduleBright)

/-- `PlantController::executeDecision` (the diagnostic printing is
external I/O and not modelled). -/
def PlantState.executeDecision (p : PlantState) (decision : ControlDecision)
    (now : ℕ) : PlantState :=
  match decision with
  | ControlDecision.TurnOn =>
    let res := p.relay.setRelayState true now
    if res.1 then { p with relay := res.2, relayChanges := p.relayChanges + 1 }
    else { p with relay := res.2 }
  | ControlDecision.TurnOff =>
    let res := p.relay.setRelayState false now
    if res.1 then { p with relay := res.2, relayChanges := p.relayChanges + 1 }
    else { p with relay := res.2 }
  | ControlDecision.KeepCurrent => p
  | ControlDecision.WaitForData => p

/-- `PlantController::update`. -/
def PlantState.update (p : PlantState) (now : ℕ) : PlantState :=
  if elapsedMs now p.lastUpdateTime < p.updateInterval then p
  else
    let p1 : PlantState := { p with lastUpdateTime := u32 now }
    if p1.automaticControlEnabled = false then p1
    else
      let dr := p1.analyzeConditions now
      let p2 :=
        if dr.1 ≠ ControlDecision.KeepCurrent ∧ dr.1 ≠ ControlDecision.WaitForData
        then p1.executeDecision dr.1 now else p1
      { p2 with lastDecision := dr.1
                lastReason := dr.2
                lastDecisionTime := u32 now
                decisionCount := p2.decisionCount + 1 }

/-- `PlantController::forceUpdate`. -/
def PlantState.forceUpdate (p : PlantState) (now : ℕ) : PlantState :=
  let dr := p.analyzeConditions now
  let p2 := p.executeDecision dr.1 now
  { p2 with lastDecision := dr.1
            lastReason := dr.2
            lastDecisionTime := u32 now
            decisionCount := p2.decisionCount + 1 }

/-- `PlantController::setAutomaticControl`. -/
def PlantState.setAutomaticControl (p : PlantState) (enabled : Bool)
    (now : ℕ) : PlantState :=
  let p1 : PlantState := { p with automaticControlEnabled := enabled }
  if enabled = false then
    { p1 with relay := (p1.relay.setRelayState false now).2 }
  else p1

/-- `PlantController::areAllComponentsHealthy`. -/
def PlantState.areAllComponentsHealthy (p : PlantState) (now : ℕ) : Bool :=
  decide (p.validateComponents now = none)

/-- A concrete controller state used to instantiate theorems: relay off
and switchable (last switch at boot), sensor initialized with a recent
valid reading averaging 50 lux, valid time at hour 10, default
configuration; evaluated at `now = 100000`. -/
def healthyPlantState : PlantState :=
  { relay := { currentState := false, lastSwitchTime := 0, minSwitchInterval := 60000 }
    sensor :=
      { bufferSize := 5
        readingBuffer := [50, 0, 0, 0, 0]
        bufferIndex := 1
        bufferFull := false
        currentAverageLux := 50
        lastRawLux := RawLux.val 50
        readingCount := 1
        lastReadingTime := 90000
        sensorInitialized := true }
    time := { timeValid := true, ntpIsTimeSet := true, ntpHours := 10 }
    lastDecision := ControlDecision.WaitForData
    lastReason := ControlReason.NoValidTime
    lastDecisionTime := 0
    lastUpdateTime := 0
    decisionCount := 0
    relayChanges := 0
    automaticControlEnabled := true
    updateInterval := 30000
    scheduleStartHour := 8
    scheduleEndHour := 23
    lightThresholdLux := 100 }

/-- A run of the control loop's sensor polling: each raw reading of `xs`
is passed through `LightSensor::updateReading` in order. -/
def runReadings (s : SensorState) (xs : List ℚ) (now : ℕ) : SensorState :=
  xs.foldl (fun st q => (st.updateReading (RawLux.val q) now).2) s

/-- Shape of the circular averaging buffer after the accepted samples
`xs` have been inserted into a fresh sensor of capacity `N`: while fewer
than `N` samples arrived the buffer is the samples followed by the unused
zero slots; once full, reading the buffer circularly from the write
cursor yields exactly the last `N` samples in order. -/
def BufShape (N : ℕ) (xs : List ℚ) (st : SensorState) : Prop :=
  st.sensorInitialized = true ∧
  st.bufferSize = N ∧
  st.readingBuffer.length = N ∧
  ((xs.length < N ∧ st.bufferFull = false ∧ st.bufferIndex = xs.length ∧
      st.readingBuffer = xs ++ List.replicate (N - xs.length) 0) ∨
    (N ≤ xs.length ∧ st.bufferFull = true ∧ st.bufferIndex = xs.length % N ∧
      st.readingBuffer.drop st.bufferIndex ++ st.readingBuffer.take st.bufferIndex
        = xs.drop (xs.length - N)))

/-! ## Theorems -/

/-- C3: a request for the current relay state succeeds and mutates
nothing (even inside the dwell window); a differing request with
wraparound-safe elapsed time strictly below the dwell interval fails and
leaves state and timestamp unchanged; a differing request with elapsed
time at least the dwell interval (in particular at exactly 60000 ms, the
constructed interval) is applied, updating state and timestamp, and
succeeds. -/
theorem setRelayState_dwell_spec (r : RelayState) (state : Bool) (now : ℕ) :
    (state = r.currentState → r.setRelayState state now = (true, r)) ∧
    (state ≠ r.currentState →
      elapsedMs now r.lastSwitchTime < r.minSwitchInterval →
      r.setRelayState state now = (false, r)) ∧
    (state ≠ r.currentState →
      r.minSwitchInterval ≤ elapsedMs now r.lastSwitchTime →
      r.setRelayState state now =
        (true, { r with currentState := state, lastSwitchTime := u32 now })) ∧
    mkRelayController.minSwitchInterval = 60000 := by
  refine ⟨fun h => ?_, fun h hlt => ?_, fun h hge => ?_, rfl⟩
  · simp [RelayState.setRelayState, h]
  · simp only [RelayState.setRelayState, RelayState.canSwitchRelay,
      RelayState.getTimeSinceLastSwitch, if_neg h]
    simp [Nat.not_le.mpr hlt]
  · simp only [RelayState.setRelayState, RelayState.canSwitchRelay,
      RelayState.getTimeSinceLastSwitch, if_neg h]
    simp [hge]

/-- Witness for C3 at the spec's own example: with `minDwell = 60000` and
a change accepted at `t = 0`, a differing request at `t = 59999` is
rejected with state and timestamp unchanged, and at `t = 60000` it is
accepted. -/
theorem setRelayState_dwell_spec_witness :
    RelayState.setRelayState
        { currentState := true, lastSwitchTime := 0, minSwitchInterval := 60000 }
        false 59999 =
      (false, { currentState := true, lastSwitchTime := 0, minSwitchInterval := 60000 }) ∧
    RelayState.setRelayState
        { currentState := true, lastSwitchTime := 0, minSwitchInterval := 60000 }
        false 60000 =
      (true, { currentState := false, lastSwitchTime := 60000, minSwitchInterval := 60000 }) := by
  constructor
  · exact (setRelayState_dwell_spec
      { currentState := true, lastSwitchTime := 0, minSwitchInterval := 60000 }
      false 59999).2.1 (by decide) (by decide)
  · have h := (setRelayState_dwell_spec
      { currentState := true, lastSwitchTime := 0, minSwitchInterval := 60000 }
      false 60000).2.2.1 (by decide) (by decide)
    simpa [u32, U32MOD] using h

/-- C4: schedule membership is false whenever time is invalid; with valid
time, for a window with `start ≤ end` the current hour is in-schedule iff
`start ≤ h < end`, and for a wrapping window (`start > end`) iff
`h ≥ start` or `h < end`. -/
theorem isTimeInRange_spec (t : TimeState) (startHour endHour : ℤ) :
    (t.hasValidTime = false → t.isTimeInRange startHour endHour = false) ∧
    (t.hasValidTime = true →
      (startHour ≤ endHour →
        (t.isTimeInRange startHour endHour = true ↔
          startHour ≤ t.getCurrentHour ∧ t.getCurrentHour < endHour)) ∧
      (endHour < startHour →
        (t.isTimeInRange startHour endHour = true ↔
          startHour ≤ t.getCurrentHour ∨ t.getCurrentHour < endHour))) := by
  refine ⟨fun h => ?_, fun h => ⟨fun hle => ?_, fun hgt => ?_⟩⟩
  · simp [TimeState.isTimeInRange, h]
  · simp [TimeState.isTimeInRange, isTimeInRangeWithDayBoundary, h, hle]
  · simp [TimeState.isTimeInRange, isTimeInRangeWithDayBoundary, h,
      Int.not_le.mpr hgt]

/-- Witness for C4 at the spec's example window `(22, 6)`: hours 22 and 5
are in-schedule, hour 6 is out, and an invalid clock is never
in-schedule. -/
theorem isTimeInRange_spec_witness :
    TimeState.isTimeInRange
        { timeValid := true, ntpIsTimeSet := true, ntpHours := 22 } 22 6 = true ∧
    TimeState.isTimeInRange
        { timeValid := true, ntpIsTimeSet := true, ntpHours := 5 } 22 6 = true ∧
    TimeState.isTimeInRange
        { timeValid := true, ntpIsTimeSet := true, ntpHours := 6 } 22 6 = false ∧
    TimeState.isTimeInRange
        { timeValid := false, ntpIsTimeSet := true, ntpHours := 12 } 22 6 = false := by
  refine ⟨?_, ?_, ?_, ?_⟩
  · exact ((isTimeInRange_spec
      { timeValid := true, ntpIsTimeSet := true, ntpHours := 22 } 22 6).2
      (by decide)).2 (by decide) |>.mpr (by decide)
  · exact ((isTimeInRange_spec
      { timeValid := true, ntpIsTimeSet := true, ntpHours := 5 } 22 6).2
      (by decide)).2 (by decide) |>.mpr (by decide)
  · have h := ((isTimeInRange_spec
      { timeValid := true, ntpIsTimeSet := true, ntpHours := 6 } 22 6).2
      (by decide)).2 (by decide)
    simpa using fun hc => (by decide : ¬ ((22 : ℤ) ≤ 6 ∨ (6 : ℤ) < 6)) (h.mp hc)
  · exact (isTimeInRange_spec
      { timeValid := false, ntpIsTimeSet := true, ntpHours := 12 } 22 6).1 (by decide)

/-- C9: a failed connection doubles the retry interval capped at
300000 ms, a successful connection resets it to the 30000 ms base, the
constructed manager starts at 30000 ms, and from the base three
consecutive failures yield 60000, 120000, 240000 ms while a fourth yields
300000 ms rather than 480000 ms. -/
theorem connect_backoff_spec :
    (∀ (w : WifiState) (now : ℕ),
      ((w.connect false now).2).reconnectInterval =
        min (w.reconnectInterval * 2) 300000) ∧
    (∀ (w : WifiState) (now : ℕ),
      ((w.connect true now).2).reconnectInterval = 30000) ∧
    mkWiFiManager.reconnectInterval = 30000 ∧
    ((mkWiFiManager.connect false 0).2.reconnectInterval = 60000 ∧
     (((mkWiFiManager.connect false 0).2.connect false 0).2.reconnectInterval = 120000) ∧
     ((((mkWiFiManager.connect false 0).2.connect false 0).2.connect false
         0).2.reconnectInterval = 240000) ∧
     (((((mkWiFiManager.connect false 0).2.connect false 0).2.connect false
         0).2.connect false 0).2.reconnectInterval = 300000)) := by
  refine ⟨fun w now => rfl, fun w now => rfl, rfl, ?_, ?_, ?_, ?_⟩ <;> decide

/-- C6: a raw reading that is NaN, negative, or above 120000 makes
`updateReading` return failure with the entire sensor state (average,
buffer, cursor, last raw value, last reading timestamp, reading count)
unchanged. -/
theorem updateReading_invalid_spec (s : SensorState) (r : RawLux) (now : ℕ)
    (h : r = RawLux.nan ∨ ∃ q, r = RawLux.val q ∧ (q < 0 ∨ 120000 < q)) :
    s.updateReading r now = (false, s) := by
  rcases h with h | ⟨q, rfl, hq⟩
  · subst h
    by_cases hi : s.sensorInitialized = false <;>
      simp [SensorState.updateReading, hi]
  · by_cases hi : s.sensorInitialized = false <;>
      simp [SensorState.updateReading, hi, hq]

/-- Witness for C6: a NaN reading, a negative reading, and an oversized
reading are each rejected on a freshly initialized sensor, leaving it
unchanged. -/
theorem updateReading_invalid_spec_witness :
    SensorState.updateReading ((mkLightSensor 5).beginSensor true) RawLux.nan 100 =
      (false, (mkLightSensor 5).beginSensor true) ∧
    SensorState.updateReading ((mkLightSensor 5).beginSensor true)
        (RawLux.val (-1)) 100 = (false, (mkLightSensor 5).beginSensor true) ∧
    SensorState.updateReading ((mkLightSensor 5).beginSensor true)
        (RawLux.val 200000) 100 = (false, (mkLightSensor 5).beginSensor true) := by
  refine ⟨?_, ?_, ?_⟩
  · exact updateReading_invalid_spec _ _ 100 (Or.inl rfl)
  · exact updateReading_invalid_spec _ _ 100 (Or.inr ⟨-1, rfl, Or.inl (by norm_num)⟩)
  · exact updateReading_invalid_spec _ _ 100 (Or.inr ⟨200000, rfl, Or.inr (by norm_num)⟩)

/-- Helper: a failing health gate short-circuits the analysis to
`WaitForData` carrying the failing check's reason. -/
theorem analyzeConditions_of_invalid (p : PlantState) (now : ℕ) (r : ControlReason)
    (h : p.validateComponents now = some r) :
    p.analyzeConditions now = (ControlDecision.WaitForData, r) := by
  simp [PlantState.analyzeConditions, h]

/-- C1: whenever all three health checks pass, the analysis returns
exactly the specified decision/reason table: out of schedule gives
`OutOfSchedule` with `TurnOff` iff the relay is on (never `TurnOn`);
in-schedule dark gives `InScheduleDark` with `TurnOn` iff the relay is
off; in-schedule bright gives `InScheduleBright` with `TurnOff` iff the
relay is on; and `TurnOn` is only ever produced inside the schedule. -/
theorem analyzeConditions_healthy_spec (p : PlantState) (now : ℕ)
    (htime : p.time.hasValidTime = true)
    (hsensor : p.sensor.isSensorHealthy now = true)
    (hrelay : p.relay.canSwitchRelay now = true) :
    (p.isWithinSchedule = false →
      p.analyzeConditions now =
        ((if p.relay.currentState then ControlDecision.TurnOff
          else ControlDecision.KeepCurrent), ControlReason.OutOfSchedule)) ∧
    (p.isWithinSchedule = true → p.isAmbientLightLow = true →
      p.analyzeConditions now =
        ((if p.relay.currentState then ControlDecision.KeepCurrent
          else ControlDecision.TurnOn), ControlReason.InScheduleDark)) ∧
    (p.isWithinSchedule = true → p.isAmbientLightLow = false →
      p.analyzeConditions now =
        ((if p.relay.currentState then ControlDecision.TurnOff
          else ControlDecision.KeepCurrent), ControlReason.InScheduleBright)) ∧
    ((p.analyzeConditions now).1 = ControlDecision.TurnOn →
      p.isWithinSchedule = true) := by
  have hv : p.validateComponents now = none := by
    simp [PlantState.validateComponents, htime, hsensor, hrelay]
  refine ⟨fun hs => ?_, fun hs hd => ?_, fun hs hd => ?_, fun hTurn => ?_⟩
  · simp [PlantState.analyzeConditions, hv, hs]
  · simp [PlantState.analyzeConditions, hv, hs, hd]
  · simp [PlantState.analyzeConditions, hv, hs, hd]
  · rcases Bool.eq_false_or_eq_true p.isWithinSchedule with hs | hs
    · exact hs
    · exfalso
      simp only [PlantState.analyzeConditions, hv, hs] at hTurn
      cases hc : p.relay.currentState <;> simp [hc] at hTurn

/-- Witness for C1: the concrete healthy state (in schedule, dark, relay
off) decides `TurnOn` with reason `InScheduleDark`. -/
theorem analyzeConditions_healthy_spec_witness :
    healthyPlantState.analyzeConditions 100000 =
      (ControlDecision.TurnOn, ControlReason.InScheduleDark) := by
  have h := (analyzeConditions_healthy_spec healthyPlantState 100000
    (by decide) (by decide) (by decide)).2.1 (by decide) (by decide)
  simpa [healthyPlantState] using h

/-- C2: the health gate checks time validity, then sensor health, then
relay availability; the first failing check yields `WaitForData` with the
corresponding reason (`NoValidTime`, `SensorFailure`, `RelayBusy`), and
whenever the gate fails, neither `update` nor `forceUpdate` changes the
relay state. -/
theorem validateComponents_priority_spec (p : PlantState) (now : ℕ) :
    (p.time.hasValidTime = false →
      p.validateComponents now = some ControlReason.NoValidTime ∧
      p.analyzeConditions now =
        (ControlDecision.WaitForData, ControlReason.NoValidTime)) ∧
    (p.time.hasValidTime = true → p.sensor.isSensorHealthy now = false →
      p.validateComponents now = some ControlReason.SensorFailure ∧
      p.analyzeConditions now =
        (ControlDecision.WaitForData, ControlReason.SensorFailure)) ∧
    (p.time.hasValidTime = true → p.sensor.isSensorHealthy now = true →
        p.relay.canSwitchRelay now = false →
      p.validateComponents now = some ControlReason.RelayBusy ∧
      p.analyzeConditions now =
        (ControlDecision.WaitForData, ControlReason.RelayBusy)) ∧
    (p.validateComponents now ≠ none →
      (p.update now).relay = p.relay ∧ (p.forceUpdate now).relay = p.relay) := by
  refine ⟨fun h1 => ?_, fun h1 h2 => ?_, fun h1 h2 h3 => ?_, fun hne => ?_⟩
  · have hv : p.validateComponents now = some ControlReason.NoValidTime := by
      simp [PlantState.validateComponents, h1]
    exact ⟨hv, analyzeConditions_of_invalid p now _ hv⟩
  · have hv : p.validateComponents now = some ControlReason.SensorFailure := by
      simp [PlantState.validateComponents, h1, h2]
    exact ⟨hv, analyzeConditions_of_invalid p now _ hv⟩
  · have hv : p.validateComponents now = some ControlReason.RelayBusy := by
      simp [PlantState.validateComponents, h1, h2, h3]
    exact ⟨hv, analyzeConditions_of_invalid p now _ hv⟩
  · obtain ⟨r, hr⟩ : ∃ r, p.validateComponents now = some r := by
      cases hvc : p.validateComponents now with
      | none => exact absurd hvc hne
      | some r => exact ⟨r, rfl⟩
    constructor
    · simp only [PlantState.update]
      split
      · rfl
      · split
        · rfl
        · have hr1 : ({ p with lastUpdateTime := u32 now } :
              PlantState).validateComponents now = some r := hr
          have h2 := analyzeConditions_of_invalid _ now r hr1
          simp [h2]
    · have h2 := analyzeConditions_of_invalid p now r hr
      simp [PlantState.forceUpdate, h2, PlantState.executeDecision]

/-- Witness for C2: with the time source invalid the gate reports
`NoValidTime`, the decision is `WaitForData`, and an `update` leaves the
relay untouched. -/
theorem validateComponents_priority_spec_witness :
    PlantState.analyzeConditions
        { healthyPlantState with
            time := { timeValid := false, ntpIsTimeSet := false, ntpHours := 0 } }
        100000 = (ControlDecision.WaitForData, ControlReason.NoValidTime) ∧
    (PlantState.update
        { healthyPlantState with
            time := { timeValid := false, ntpIsTimeSet := false, ntpHours := 0 } }
        100000).relay = healthyPlantState.relay := by
  have h := validateComponents_priority_spec
    { healthyPlantState with
        time := { timeValid := false, ntpIsTimeSet := false, ntpHours := 0 } } 100000
  exact ⟨(h.1 (by decide)).2, (h.2.2.2 (by decide)).1⟩

/-- Counterexample to C8 as stated: a freshly initialized sensor with
zero accepted samples (`readingCount = 0`, boot values
`lastReadingTime = 0`, `lastRawLux = 0`) already reports healthy at
`now = 30000 ms`, so the predicate is not false when no sample has ever
been accepted. -/
theorem isSensorHealthy_never_sampled_cex :
    ((mkLightSensor SENSOR_SAMPLES).beginSensor true).readingCount = 0 ∧
    ((mkLightSensor SENSOR_SAMPLES).beginSensor true).isSensorHealthy 30000 = true := by
  constructor
  · rfl
  · decide

/-- C8 amended: the health predicate requires the sensor to be
initialized, the last-reading timestamp to be within the 60000 ms recency
window, and the last raw value to be non-NaN and non-negative — but it
does not require that a sample was ever accepted: because the timestamp
and raw value boot at 0, a freshly initialized, never-sampled sensor
reports healthy throughout the first 60000 ms. -/
theorem isSensorHealthy_amended (s : SensorState) (now : ℕ) :
    (s.isSensorHealthy now = true →
      s.sensorInitialized = true ∧
      elapsedMs now s.lastReadingTime < 60000 ∧
      s.lastRawLux.isnan = false ∧ s.lastRawLux.nonneg = true) ∧
    (∀ n : ℕ, elapsedMs n 0 < 60000 →
      ((mkLightSensor SENSOR_SAMPLES).beginSensor true).isSensorHealthy n = true ∧
      ((mkLightSensor SENSOR_SAMPLES).beginSensor true).readingCount = 0) := by
  constructor
  · intro h
    by_cases hi : s.sensorInitialized = false
    · simp [SensorState.isSensorHealthy, hi] at h
    · have hi' : s.sensorInitialized = true := by simpa using hi
      rw [SensorState.isSensorHealthy, hi'] at h
      simp at h
      exact ⟨hi', h.1, h.2.1, h.2.2⟩
  · intro n hn
    refine ⟨?_, rfl⟩
    simp [SensorState.isSensorHealthy, mkLightSensor, SensorState.beginSensor,
      SensorState.resetAveraging, RawLux.isnan, RawLux.nonneg, hn]

/-- Witness for C8's amended statement: the never-sampled sensor is
healthy at `now = 1000 ms`. -/
theorem isSensorHealthy_amended_witness :
    ((mkLightSensor SENSOR_SAMPLES).beginSensor true).isSensorHealthy 1000 = true ∧
    ((mkLightSensor SENSOR_SAMPLES).beginSensor true).readingCount = 0 :=
  (isSensorHealthy_amended ((mkLightSensor SENSOR_SAMPLES).beginSensor true)
    1000).2 1000 (by decide)

/-- Counterexample to C7 as stated: with the relay on and only 30000 ms
elapsed since its last accepted change (dwell 60000 ms), disabling
automatic control leaves the actuator ON — the dwell-checked path rejects
the forced turn-off, so "after `setAutomaticControl(false)`, the actuator
is off" fails. -/
theorem setAutomaticControl_not_off_cex :
    (PlantState.setAutomaticControl
        { healthyPlantState with
            relay := { currentState := true, lastSwitchTime := 0,
                       minSwitchInterval := 60000 } }
        false 30000).relay.currentState = true := by decide

/-- C7 amended: `setAutomaticControl(false)` disables automatic control
and requests the actuator off through the safety gate's normal
dwell-checked path (not the emergency path): the actuator ends up off iff
it was already off or the dwell interval has elapsed since the last
accepted change; if the dwell gate rejects the request, the relay state
and its timestamp are left completely unchanged (so the actuator can
remain on). -/
theorem setAutomaticControl_spec (p : PlantState) (now : ℕ) :
    (p.setAutomaticControl false now).automaticControlEnabled = false ∧
    ((p.setAutomaticControl false now).relay.currentState = false ↔
      (p.relay.currentState = false ∨
        p.relay.minSwitchInterval ≤ elapsedMs now p.relay.lastSwitchTime)) ∧
    ((p.setAutomaticControl false now).relay.currentState = true →
      (p.setAutomaticControl false now).relay = p.relay) := by
  have hrelay : (p.setAutomaticControl false now).relay =
      (p.relay.setRelayState false now).2 := rfl
  by_cases hc : p.relay.currentState = false
  · have h1 : p.relay.setRelayState false now = (true, p.relay) := by
      simp [RelayState.setRelayState, hc]
    refine ⟨rfl, ?_, fun _ => ?_⟩
    · rw [hrelay, h1]
      simp [hc]
    · rw [hrelay, h1]
  · have hc' : p.relay.currentState = true := by simpa using hc
    by_cases hd : p.relay.minSwitchInterval ≤ elapsedMs now p.relay.lastSwitchTime
    · have h1 : p.relay.setRelayState false now =
          (true, { p.relay with currentState := false, lastSwitchTime := u32 now }) := by
        simp [RelayState.setRelayState, hc', RelayState.canSwitchRelay,
          RelayState.getTimeSinceLastSwitch, hd]
      refine ⟨rfl, ?_, fun ht => ?_⟩
      · rw [hrelay, h1]
        simp [hd]
      · rw [hrelay, h1] at ht
        simp at ht
    · have h1 : p.relay.setRelayState false now = (false, p.relay) := by
        simp [RelayState.setRelayState, hc', RelayState.canSwitchRelay,
          RelayState.getTimeSinceLastSwitch, hd]
      refine ⟨rfl, ?_, fun _ => ?_⟩
      · rw [hrelay, h1]
        simp [hc', hd]
      · rw [hrelay, h1]

/-- Witness for C7's amended statement: in the dwell-blocked scenario the
relay substate (state and timestamp) is exactly unchanged. -/
theorem setAutomaticControl_spec_witness :
    (PlantState.setAutomaticControl
        { healthyPlantState with
            relay := { currentState := true, lastSwitchTime := 0,
                       minSwitchInterval := 60000 } }
        false 30000).relay =
      { currentState := true, lastSwitchTime := 0, minSwitchInterval := 60000 } :=
  (setAutomaticControl_spec
    { healthyPlantState with
        relay := { currentState := true, lastSwitchTime := 0,
                   minSwitchInterval := 60000 } } 30000).2.2 (by decide)

/-- Helper for C10: `executeDecision` never reads the automatic-control
flag. -/
theorem executeDecision_flag (p : PlantState) (b : Bool) (d : ControlDecision)
    (now : ℕ) :
    ({ p with automaticControlEnabled := b } : PlantState).executeDecision d now
      = { p.executeDecision d now with automaticControlEnabled := b } := by
  cases d <;> simp only [PlantState.executeDecision] <;> try rfl
  all_goals split <;> rfl

/-- C10: while automatic control is disabled, an eligible periodic
`update` only advances the poll timestamp — no evaluation, no decision
recording, no actuation (and an ineligible tick does nothing at all) —
whereas `forceUpdate` is insensitive to the automatic-control flag and,
in a healthy dark in-schedule state with the flag disabled, turns the
relay back on. -/
theorem forceUpdate_ignores_gates_spec :
    (∀ (p : PlantState) (now : ℕ), p.automaticControlEnabled = false →
      p.updateInterval ≤ elapsedMs now p.lastUpdateTime →
      p.update now = { p with lastUpdateTime := u32 now }) ∧
    (∀ (p : PlantState) (now : ℕ),
      elapsedMs now p.lastUpdateTime < p.updateInterval → p.update now = p) ∧
    (∀ (p : PlantState) (now : ℕ) (b : Bool),
      ({ p with automaticControlEnabled := b } : PlantState).forceUpdate now
        = { p.forceUpdate now with automaticControlEnabled := b }) ∧
    (({ healthyPlantState with automaticControlEnabled := false } :
        PlantState).automaticControlEnabled = false ∧
     ({ healthyPlantState with automaticControlEnabled := false } :
        PlantState).relay.currentState = false ∧
     (({ healthyPlantState with automaticControlEnabled := false } :
        PlantState).forceUpdate 100000).relay.currentState = true) := by
  refine ⟨fun p now ha hg => ?_, fun p now hg => ?_, fun p now b => ?_,
    rfl, rfl, by decide⟩
  · simp [PlantState.update, Nat.not_lt.mpr hg, ha]
  · simp [PlantState.update, hg]
  · have hA : ({ p with automaticControlEnabled := b } :
        PlantState).analyzeConditions now = p.analyzeConditions now := rfl
    simp only [PlantState.forceUpdate, hA, executeDecision_flag]

/-- Witness for C10: the disabled healthy state, updated on an eligible
tick, changes nothing but the poll timestamp. -/
theorem forceUpdate_ignores_gates_spec_witness :
    PlantState.update
        { healthyPlantState with automaticControlEnabled := false } 100000
      = { healthyPlantState with
          automaticControlEnabled := false
          lastUpdateTime := 100000 } := by
  have h := forceUpdate_ignores_gates_spec.1
    { healthyPlantState with automaticControlEnabled := false } 100000
    (by decide) (by decide)
  exact h

/-- Helper: dropping one more element of a circular view. -/
theorem rot_tail {α : Type} (b : List α) (i : ℕ) (hi : i < b.length) :
    (b.drop i ++ b.take i).tail = b.drop (i + 1) ++ b.take i := by
  rw [List.drop_eq_getElem_cons hi, List.cons_append, List.tail_cons]

/-- Helper: taking one past a just-written slot appends the new value to
the prefix. -/
theorem set_take_succ {α : Type} (b : List α) (i : ℕ) (x : α)
    (hi : i < b.length) :
    (b.set i x).take (i + 1) = b.take i ++ [x] := by
  rw [List.set_take, ← List.take_concat_get b i hi, List.concat_eq_append,
    List.set_append_right]
  · simp [List.length_take, Nat.min_eq_left (le_of_lt hi)]
  · simp [List.length_take]

/-- Helper: overwriting the final slot. -/
theorem set_last_eq {α : Type} (b : List α) (i : ℕ) (x : α)
    (hi : i + 1 = b.length) :
    b.set i x = b.take i ++ [x] := by
  have h2 : (b.set i x).take (i + 1) = b.take i ++ [x] :=
    set_take_succ b i x (by omega)
  rwa [List.take_of_length_le (by simp [← hi])] at h2

/-- Helper: the average stored by `calculateAverage` is the sum of the
occupied slots divided by their number. -/
theorem calculateAverage_avg (s : SensorState) :
    s.calculateAverage.currentAverageLux =
      (if 0 < (if s.bufferFull then s.bufferSize else s.bufferIndex) then
        (s.readingBuffer.take
            (if s.bufferFull then s.bufferSize else s.bufferIndex)).sum
          / (((if s.bufferFull then s.bufferSize else s.bufferIndex) : ℕ) : ℚ)
       else 0) := rfl

/-- Helper: one circular-buffer insertion preserves the buffer-shape
invariant, extending the sample history by the new value. -/
theorem bufShape_addToBuffer (N : ℕ) (hN : 0 < N) (xs : List ℚ)
    (st : SensorState) (x : ℚ) (h : BufShape N xs st) :
    BufShape N (xs ++ [x]) (st.addToBuffer x) := by
  obtain ⟨hinit, hsize, hlen, hcase⟩ := h
  rcases hcase with ⟨hlt, hfull, hidx, hbuf⟩ | ⟨hge, hfull, hidx, hrot⟩
  · -- buffer not yet full: the cursor sits at position `xs.length < N`
    have hbuf' : st.readingBuffer.set st.bufferIndex x
        = (xs ++ [x]) ++ List.replicate (N - (xs.length + 1)) 0 := by
      have h1 : List.replicate (N - xs.length) (0 : ℚ)
          = 0 :: List.replicate (N - (xs.length + 1)) 0 := by
        rw [← List.replicate_succ]
        congr 1
        omega
      rw [hbuf, hidx, h1, List.set_append_right _ _ le_rfl, Nat.sub_self,
        List.set_cons_zero, List.append_assoc, List.singleton_append]
    by_cases hw : N ≤ xs.length + 1
    · -- this insertion fills the buffer exactly
      have hkN : xs.length + 1 = N := by omega
      have hstep : st.addToBuffer x
          = { st with readingBuffer := st.readingBuffer.set st.bufferIndex x,
                      bufferIndex := 0, bufferFull := true } := by
        rw [SensorState.addToBuffer]
        simp [hidx, hsize, hw]
      refine ⟨by rw [hstep]; exact hinit, by rw [hstep]; exact hsize, ?_, Or.inr ?_⟩
      · rw [hstep]
        simpa using hlen
      · refine ⟨by simp [hkN], by rw [hstep], ?_, ?_⟩
        · rw [hstep]
          simp [hkN]
        · rw [hstep]
          simp only [List.drop_zero, List.take_zero, List.append_nil]
          rw [hbuf']
          simp [hkN]
    · -- the buffer still has free slots after this insertion
      have hstep : st.addToBuffer x
          = { st with readingBuffer := st.readingBuffer.set st.bufferIndex x,
                      bufferIndex := st.bufferIndex + 1 } := by
        rw [SensorState.addToBuffer]
        simp [hidx, hsize, hw]
      refine ⟨by rw [hstep]; exact hinit, by rw [hstep]; exact hsize, ?_, Or.inl ?_⟩
      · rw [hstep]
        simpa using hlen
      · refine ⟨by simp; omega, by rw [hstep]; exact hfull, ?_, ?_⟩
        · rw [hstep]
          simp [hidx]
        · rw [hstep]
          simp only
          rw [hbuf']
          simp
  · -- buffer already full: the cursor is `xs.length % N`
    have hiN : st.bufferIndex < N := by
      rw [hidx]
      exact Nat.mod_lt _ hN
    have hmod : (xs.length % N + 1) % N = (xs.length + 1) % N :=
      Nat.ModEq.add_right 1 (Nat.mod_modEq xs.length N)
    have htail : st.readingBuffer.drop (st.bufferIndex + 1)
          ++ st.readingBuffer.take st.bufferIndex
        = xs.drop (xs.length - N + 1) := by
      have h1 := congrArg List.tail hrot
      rwa [rot_tail _ _ (by omega), List.tail_drop] at h1
    have hdropx : (xs ++ [x]).drop (xs.length + 1 - N)
        = xs.drop (xs.length - N + 1) ++ [x] := by
      rw [List.drop_append_of_le_length (by omega)]
      congr 2
      omega
    by_cases hw : N ≤ st.bufferIndex + 1
    · -- the cursor wraps back to slot 0
      have hiN1 : st.bufferIndex + 1 = N := by omega
      have hstep : st.addToBuffer x
          = { st with readingBuffer := st.readingBuffer.set st.bufferIndex x,
                      bufferIndex := 0, bufferFull := true } := by
        rw [SensorState.addToBuffer]
        simp [hsize, hw]
      have hlen1 : (xs ++ [x]).length = xs.length + 1 := by simp
      refine ⟨by rw [hstep]; exact hinit, by rw [hstep]; exact hsize, ?_, Or.inr ?_⟩
      · rw [hstep]
        simpa using hlen
      · refine ⟨by simp; omega, by rw [hstep], ?_, ?_⟩
        · rw [hstep]
          simp only
          rw [hlen1, ← hmod, ← hidx, hiN1, Nat.mod_self]
        · rw [hstep]
          simp only [List.drop_zero, List.take_zero, List.append_nil]
          rw [hlen1, set_last_eq _ _ _ (by omega), hdropx, ← htail]
          have hdropN : st.readingBuffer.drop (st.bufferIndex + 1) = [] :=
            List.drop_eq_nil_of_le (by omega)
          rw [hdropN, List.nil_append]
    · -- the cursor advances without wrapping
      have hstep : st.addToBuffer x
          = { st with readingBuffer := st.readingBuffer.set st.bufferIndex x,
                      bufferIndex := st.bufferIndex + 1 } := by
        rw [SensorState.addToBuffer]
        simp [hsize, hw]
      have hlen1 : (xs ++ [x]).length = xs.length + 1 := by simp
      refine ⟨by rw [hstep]; exact hinit, by rw [hstep]; exact hsize, ?_, Or.inr ?_⟩
      · rw [hstep]
        simpa using hlen
      · refine ⟨by simp; omega, by rw [hstep]; exact hfull, ?_, ?_⟩
        · rw [hstep]
          simp only
          rw [hlen1, ← hmod, ← hidx, Nat.mod_eq_of_lt (by omega)]
        · rw [hstep]
          simp only
          rw [hlen1, List.drop_set_of_lt _ _ (by omega),
            set_take_succ _ _ _ (by omega), hdropx, ← htail, ← List.append_assoc]

/-- Helper: on an initialized sensor, a valid sample is accepted —
`updateReading` records it and recomputes the average. -/
theorem updateReading_valid (s : SensorState) (a : ℚ) (now : ℕ)
    (hinit : s.sensorInitialized = true) (ha : 0 ≤ a) (hb : a ≤ 120000) :
    s.updateReading (RawLux.val a) now =
      (true, (({ s with lastRawLux := RawLux.val a
                        lastReadingTime := u32 now
                        readingCount := s.readingCount + 1 } :
          SensorState).addToBuffer a).calculateAverage) := by
  have hna : ¬(a < 0 ∨ 120000 < a) := by
    push_neg
    exact ⟨ha, hb⟩
  simp only [SensorState.updateReading, hinit, Bool.true_eq_false, if_false,
    hna, if_neg hna]

/-- Helper: running any sequence of valid samples through
`updateReading` on a fresh sensor maintains the buffer-shape invariant,
and the stored average is always the mean over the occupied slots. -/
theorem runReadings_shape (N : ℕ) (hN : 0 < N) (now : ℕ) :
    ∀ xs : List ℚ, (∀ x ∈ xs, 0 ≤ x ∧ x ≤ 120000) →
      BufShape N xs (runReadings ((mkLightSensor N).beginSensor true) xs now) ∧
      (runReadings ((mkLightSensor N).beginSensor true) xs now).currentAverageLux
        = (let st := runReadings ((mkLightSensor N).beginSensor true) xs now
           let cnt := if st.bufferFull then st.bufferSize else st.bufferIndex
           if 0 < cnt then (st.readingBuffer.take cnt).sum / (cnt : ℚ) else 0) := by
  intro xs
  induction xs using List.reverseRecOn with
  | nil =>
    intro _
    constructor
    · exact ⟨rfl, rfl, by simp [runReadings, mkLightSensor,
        SensorState.beginSensor, SensorState.resetAveraging],
        Or.inl ⟨hN, rfl, rfl, by simp [runReadings, mkLightSensor,
          SensorState.beginSensor, SensorState.resetAveraging]⟩⟩
    · simp [runReadings, mkLightSensor, SensorState.beginSensor,
        SensorState.resetAveraging]
  | append_singleton l a ih =>
    intro hv
    have hvl : ∀ x ∈ l, 0 ≤ x ∧ x ≤ 120000 := fun x hx => hv x (by simp [hx])
    have hva : 0 ≤ a ∧ a ≤ 120000 := hv a (by simp)
    obtain ⟨hshape, _⟩ := ih hvl
    have hinit : (runReadings ((mkLightSensor N).beginSensor true) l now).sensorInitialized
        = true := hshape.1
    have hrun : runReadings ((mkLightSensor N).beginSensor true) (l ++ [a]) now
        = (({ runReadings ((mkLightSensor N).beginSensor true) l now with
                lastRawLux := RawLux.val a
                lastReadingTime := u32 now
                readingCount :=
                  (runReadings ((mkLightSensor N).beginSensor true) l now).readingCount
                    + 1 } : SensorState).addToBuffer a).calculateAverage := by
      have hfold : runReadings ((mkLightSensor N).beginSensor true) (l ++ [a]) now
          = (SensorState.updateReading
              (runReadings ((mkLightSensor N).beginSensor true) l now)
              (RawLux.val a) now).2 := by
        simp [runReadings, List.foldl_append]
      rw [hfold, updateReading_valid _ a now hinit hva.1 hva.2]
    have hshape1 : BufShape N l
        ({ runReadings ((mkLightSensor N).beginSensor true) l now with
            lastRawLux := RawLux.val a
            lastReadingTime := u32 now
            readingCount :=
              (runReadings ((mkLightSensor N).beginSensor true) l now).readingCount
                + 1 } : SensorState) := hshape
    have hstep := bufShape_addToBuffer N hN l _ a hshape1
    constructor
    · rw [hrun]
      exact hstep
    · rw [hrun]
      exact calculateAverage_avg _

/-- C5: inserting `k` valid samples into a fresh averager of capacity
`N ≥ 1` yields, while `k < N`, the arithmetic mean of all `k` samples
(the divisor is `k`, never the nominal capacity), and once `k ≥ N`, the
arithmetic mean of the last `N` samples only. -/
theorem average_window_spec (N : ℕ) (xs : List ℚ) (now : ℕ)
    (hN : 0 < N) (hv : ∀ x ∈ xs, 0 ≤ x ∧ x ≤ 120000) :
    (xs.length < N →
      (runReadings ((mkLightSensor N).beginSensor true) xs now).currentAverageLux
        = xs.sum / (xs.length : ℚ)) ∧
    (N ≤ xs.length →
      (runReadings ((mkLightSensor N).beginSensor true) xs now).currentAverageLux
        = (xs.drop (xs.length - N)).sum / (N : ℚ)) := by
  obtain ⟨⟨hinit, hsize, hlen, hcase⟩, havg⟩ := runReadings_shape N hN now xs hv
  constructor
  · intro hk
    rcases hcase with ⟨_, hfull, hidx, hbuf⟩ | ⟨hge, _, _, _⟩
    · rw [havg]
      simp only [hfull, Bool.false_eq_true, if_false, hidx, hbuf]
      by_cases h0 : 0 < xs.length
      · rw [if_pos h0, List.take_left]
      · have hnil : xs = [] := List.length_eq_zero.mp (by omega)
        subst hnil
        simp
    · omega
  · intro hk
    rcases hcase with ⟨hlt, _, _, _⟩ | ⟨_, hfull, hidx, hrot⟩
    · omega
    · have hbufsum : (runReadings ((mkLightSensor N).beginSensor true) xs
          now).readingBuffer.sum = (xs.drop (xs.length - N)).sum := by
        have h1 := congrArg List.sum hrot
        rwa [List.sum_append, add_comm, ← List.sum_append,
          List.take_append_drop] at h1
      rw [havg]
      simp only [hfull, eq_self_iff_true, if_true, hsize]
      rw [if_pos hN, List.take_of_length_le (le_of_eq hlen), hbufsum]

/-- Witness for C5 at the spec's own end-to-end example: capacity 5 with
samples `[50, 60, 55, 1000, 45]` averages `242`, and after three more
samples `[10, 20, 30]` (eight total) the average is the mean `221` of the
last five only. -/
theorem average_window_spec_witness :
    (runReadings ((mkLightSensor 5).beginSensor true)
        [50, 60, 55, 1000, 45] 0).currentAverageLux = 242 ∧
    (runReadings ((mkLightSensor 5).beginSensor true)
        [50, 60, 55, 1000, 45, 10, 20, 30] 0).currentAverageLux = 221 := by
  constructor
  · have h := (average_window_spec 5 [50, 60, 55, 1000, 45] 0 (by norm_num)
      (by intro x hx; fin_cases hx <;> norm_num)).2 (by norm_num)
    rw [h]
    norm_num
  · have h := (average_window_spec 5 [50, 60, 55, 1000, 45, 10, 20, 30] 0
      (by norm_num) (by intro x hx; fin_cases hx <;> norm_num)).2 (by norm_num)
    rw [h]
    norm_num

end SmartPlantLight
